import Mathlib

/-!
Verification development for `sleeper_league_data.py`, a sequential fetcher /
aggregator of fantasy-football league data.

Shallow embedding conventions:
* Python dicts are association lists (`List (κ × α)`) preserving insertion
  order; `lookupA` is `d.get(k)` / `k in d`, `updateAssoc` is `d[k] = v`
  (existing keys keep their position, new keys append at the end).
* JSON numeric stat values are modelled as `Rat` (the script only adds,
  divides and compares them).
* A fetch result (`Optional[...]` in the source) is an `Option`; Python
  truthiness of an optional list (`if xs:`) is `truthyList`.
* Functions keep the snake_case names of the source where possible.
-/

set_option maxRecDepth 4000

/-- `d.get(k)`: first value bound to `k` in an association list. -/
def lookupA {κ : Type} {α : Type} [DecidableEq κ] : List (κ × α) → κ → Option α
  | [], _ => none
  | (k, v) :: rest, key => if k = key then some v else lookupA rest key

/-- `d[k] = v` on a Python dict: overwrite in place if the key exists,
append at the end otherwise. -/
def updateAssoc {κ : Type} {α : Type} [DecidableEq κ] (d : List (κ × α)) (k : κ) (v : α) :
    List (κ × α) :=
  if (lookupA d k).isSome then
    d.map (fun p => if p.1 = k then (k, v) else p)
  else
    d ++ [(k, v)]

/-- The key list of an association list (dict key view). -/
def keysOf {κ : Type} {α : Type} (d : List (κ × α)) : List κ :=
  d.map Prod.fst

/-- Python truthiness of an optional list: `None` and `[]` are falsy. -/
def truthyList {α : Type} : Option (List α) → Bool
  | some (_ :: _) => true
  | _ => false

theorem lookupA_eq_none_iff {κ α : Type} [DecidableEq κ] (d : List (κ × α)) (k : κ) :
    lookupA d k = none ↔ k ∉ keysOf d := by
  induction d with
  | nil => simp [lookupA, keysOf]
  | cons p rest ih =>
    obtain ⟨k', v⟩ := p
    by_cases h : k' = k
    · subst h
      simp [lookupA, keysOf]
    · simp [lookupA, keysOf, h, Ne.symm h] at ih ⊢
      exact ih

theorem lookupA_isSome_iff {κ α : Type} [DecidableEq κ] (d : List (κ × α)) (k : κ) :
    (lookupA d k).isSome = true ↔ k ∈ keysOf d := by
  rw [Option.isSome_iff_ne_none]
  constructor
  · intro h
    by_contra hk
    exact h ((lookupA_eq_none_iff d k).mpr hk)
  · intro hk h
    exact ((lookupA_eq_none_iff d k).mp h) hk

/-! ## Data model (JSON documents consumed by the script) -/

/-- One entry of the global player directory (`players/nfl`).  Fields the
script reads, each optional since JSON keys may be missing. -/
structure PlayerInfo where
  firstName : Option String := none
  lastName : Option String := none
  position : Option String := none
  team : Option String := none
  yearsExp : Option Nat := none
  fantasyPositions : Option (List String) := none
  active : Option Bool := none
deriving DecidableEq

/-- One roster document. `roster_id` is accessed by subscript in the source
(a required key), the rest via `.get`. -/
structure Roster where
  rosterId : Nat
  ownerId : Option String := none
  players : Option (List String) := none
deriving DecidableEq

/-- One league user document. -/
structure User where
  userId : Option String := none
  displayName : Option String := none
  metadata : Option (List (String × String)) := none
deriving DecidableEq

/-- One matchup document for one roster in one week. -/
structure Matchup where
  rosterId : Option Nat := none
  matchupId : Option Nat := none
  starters : Option (List String) := none
  startersPoints : Option (List Rat) := none
  playersPoints : Option (List (String × Rat)) := none
deriving DecidableEq

/-- A single player's stat line for one week: stat name to numeric value. -/
abbrev StatLine := List (String × Rat)

/-- One week's stats blob: player id to stat line. -/
abbrev WeekStats := List (String × StatLine)

/-- The `stats_by_week` mapping passed to the aggregator. -/
abbrev StatsByWeek := List (Nat × WeekStats)

/-! ## `get_rostered_players` (source lines 106-113) -/

/-- `get_rostered_players`: union of every roster's player-id list.
`roster.get('players', [])` followed by a truthiness check means an absent
or empty list contributes nothing. -/
def get_rostered_players (rostersData : List Roster) : Finset String :=
  rostersData.foldl
    (fun acc r =>
      match r.players with
      | some ps => if ps ≠ [] then acc ∪ ps.toFinset else acc
      | none => acc)
    ∅

theorem mem_get_rostered_players_foldl (rostersData : List Roster) (acc : Finset String)
    (x : String) :
    (x ∈ rostersData.foldl
        (fun acc r =>
          match r.players with
          | some ps => if ps ≠ [] then acc ∪ ps.toFinset else acc
          | none => acc)
        acc) ↔
      x ∈ acc ∨ ∃ r ∈ rostersData, ∃ ps, r.players = some ps ∧ x ∈ ps := by
  induction rostersData generalizing acc with
  | nil => simp
  | cons r rest ih =>
    cases hp : r.players with
    | none =>
      simp only [List.foldl_cons, hp, ih, List.mem_cons]
      constructor
      · rintro (h | ⟨r', hr', ps, hps, hx⟩)
        · exact Or.inl h
        · exact Or.inr ⟨r', Or.inr hr', ps, hps, hx⟩
      · rintro (h | ⟨r', hr' | hr', ps, hps, hx⟩)
        · exact Or.inl h
        · subst hr'
          rw [hp] at hps
          exact absurd hps (by simp)
        · exact Or.inr ⟨r', hr', ps, hps, hx⟩
    | some ps =>
      by_cases hps : ps = []
      · subst hps
        have hcond : ¬ (([] : List String) ≠ []) := fun h => h rfl
        simp only [List.foldl_cons, hp, if_neg hcond, ih, List.mem_cons]
        constructor
        · rintro (h | ⟨r', hr', ps', hps', hx⟩)
          · exact Or.inl h
          · exact Or.inr ⟨r', Or.inr hr', ps', hps', hx⟩
        · rintro (h | ⟨r', hr' | hr', ps', hps', hx⟩)
          · exact Or.inl h
          · subst hr'
            rw [hp] at hps'
            cases hps'
            simp at hx
          · exact Or.inr ⟨r', hr', ps', hps', hx⟩
      · simp only [List.foldl_cons, hp, if_pos hps, ih, Finset.mem_union, List.mem_toFinset,
          List.mem_cons]
        constructor
        · rintro ((h | hx) | ⟨r', hr', ps', hps', hx⟩)
          · exact Or.inl h
          · exact Or.inr ⟨r, Or.inl rfl, ps, hp, hx⟩
          · exact Or.inr ⟨r', Or.inr hr', ps', hps', hx⟩
        · rintro (h | ⟨r', hr' | hr', ps', hps', hx⟩)
          · exact Or.inl (Or.inl h)
          · subst hr'
            rw [hp] at hps'
            cases hps'
            exact Or.inl (Or.inr hx)
          · exact Or.inr ⟨r', hr', ps', hps', hx⟩

/-- C5: for every list of roster records the rostered set is exactly the
union of each roster's player-identifier list (absent or empty player lists
contribute nothing), and the empty roster list yields the empty set. -/
theorem c5_rostered_set_is_union :
    (∀ (rostersData : List Roster) (x : String),
        x ∈ get_rostered_players rostersData ↔
          ∃ r ∈ rostersData, ∃ ps, r.players = some ps ∧ x ∈ ps) ∧
      get_rostered_players [] = ∅ := by
  refine ⟨fun rostersData x => ?_, rfl⟩
  rw [get_rostered_players, mem_get_rostered_players_foldl]
  simp

/-! ## `get_unrostered_players_with_season_stats` (source lines 116-172) -/

/-- Running per-player accumulator of the aggregation loop body
(source lines 130-153). -/
structure PlayerAccum where
  seasonTotals : List (String × Rat)
  weeklyStats : List (Nat × StatLine)
  totalFantasyPoints : Rat
  weeksPlayed : Nat

/-- Source lines 143-147: add every stat field of one week into the running
season totals, except the non-additive `gms_active` marker.  (All stat
values are numeric in the model, so the `isinstance` test always passes.) -/
def addStatTotals (seasonTotals : List (String × Rat)) (playerWeekStats : StatLine) :
    List (String × Rat) :=
  playerWeekStats.foldl
    (fun totals sv =>
      if sv.1 ≠ "gms_active" then
        updateAssoc totals sv.1 ((lookupA totals sv.1).getD 0 + sv.2)
      else totals)
    seasonTotals

/-- One iteration of the per-week loop (source lines 135-153): skip weeks
where the player is absent, record the weekly line, extend the season
totals, and count fantasy points / weeks played only when the week's
`pts_half_ppr` value is strictly positive. -/
def accum_week_step (pid : String) (acc : PlayerAccum) (ws : Nat × WeekStats) : PlayerAccum :=
  match lookupA ws.2 pid with
  | none => acc
  | some pws =>
    let weekFP : Rat := (lookupA pws "pts_half_ppr").getD 0
    if weekFP > 0 then
      { seasonTotals := addStatTotals acc.seasonTotals pws
        weeklyStats := acc.weeklyStats ++ [(ws.1, pws)]
        totalFantasyPoints := acc.totalFantasyPoints + weekFP
        weeksPlayed := acc.weeksPlayed + 1 }
    else
      { seasonTotals := addStatTotals acc.seasonTotals pws
        weeklyStats := acc.weeklyStats ++ [(ws.1, pws)]
        totalFantasyPoints := acc.totalFantasyPoints
        weeksPlayed := acc.weeksPlayed }

/-- The whole per-player accumulation over the fetched weeks. -/
def accumWeeks (pid : String) (statsByWeek : StatsByWeek) : PlayerAccum :=
  statsByWeek.foldl (accum_week_step pid) ⟨[], [], 0, 0⟩

/-- The output record built for an emitted player (source lines 157-170). -/
structure SeasonEntry where
  name : String
  position : String
  team : String
  yearsExp : Nat
  fantasyPositions : List String
  seasonStats : List (String × Rat)
  weeklyStats : List (Nat × StatLine)
  totalFantasyPoints : Rat
  weeksPlayed : Nat
  avgPointsPerWeek : Rat
deriving DecidableEq

def mkSeasonEntry (playerInfo : PlayerInfo) (acc : PlayerAccum) : SeasonEntry :=
  { name := ((playerInfo.firstName.getD "") ++ " " ++ (playerInfo.lastName.getD "")).trim
    position := playerInfo.position.getD "N/A"
    team := playerInfo.team.getD "N/A"
    yearsExp := playerInfo.yearsExp.getD 0
    fantasyPositions := playerInfo.fantasyPositions.getD []
    seasonStats := acc.seasonTotals
    weeklyStats := acc.weeklyStats
    totalFantasyPoints := acc.totalFantasyPoints
    weeksPlayed := acc.weeksPlayed
    avgPointsPerWeek :=
      if acc.weeksPlayed > 0 then acc.totalFantasyPoints / (acc.weeksPlayed : Rat) else 0 }

/-- One iteration of the outer player loop (source lines 120-170): skip
rostered players, skip inactive players, and emit the season record only
when the accumulated fantasy-point total is strictly positive. -/
def unrostered_step (rostered : Finset String) (sbw : StatsByWeek)
    (out : List (String × SeasonEntry)) (pp : String × PlayerInfo) :
    List (String × SeasonEntry) :=
  if pp.1 ∈ rostered then out
  else if pp.2.active.getD false = false then out
  else if (accumWeeks pp.1 sbw).totalFantasyPoints > 0 then
    out ++ [(pp.1, mkSeasonEntry pp.2 (accumWeeks pp.1 sbw))]
  else out

/-- `get_unrostered_players_with_season_stats`: iterate the player
directory in order, emitting season records as dict insertions. -/
def get_unrostered_players_with_season_stats (playersData : List (String × PlayerInfo))
    (rosteredPlayers : Finset String) (statsByWeek : StatsByWeek) :
    List (String × SeasonEntry) :=
  playersData.foldl (unrostered_step rosteredPlayers statsByWeek) []

/-- The per-week `pts_half_ppr` values of one player, one entry per fetched
week in which the player appears in that week's stats blob (absent field
defaults to 0, as in `player_week_stats.get('pts_half_ppr', 0)`). -/
def weekly_points (pid : String) (sbw : StatsByWeek) : List Rat :=
  sbw.filterMap (fun ws => (lookupA ws.2 pid).map (fun pws => (lookupA pws "pts_half_ppr").getD 0))

/-- The fantasy-point total the code actually accumulates: the sum of the
strictly positive weekly `pts_half_ppr` values only. -/
def positive_weeks_total (pid : String) (sbw : StatsByWeek) : Rat :=
  ((weekly_points pid sbw).filter (fun v => decide (0 < v))).sum

theorem accum_foldl_totalFP (pid : String) :
    ∀ (sbw : StatsByWeek) (acc : PlayerAccum),
      (sbw.foldl (accum_week_step pid) acc).totalFantasyPoints =
        acc.totalFantasyPoints + positive_weeks_total pid sbw := by
  intro sbw
  induction sbw with
  | nil => intro acc; simp [positive_weeks_total, weekly_points]
  | cons ws rest ih =>
    intro acc
    rw [List.foldl_cons, ih]
    cases hl : lookupA ws.2 pid with
    | none =>
      simp [accum_week_step, hl, positive_weeks_total, weekly_points, List.filterMap_cons]
    | some pws =>
      by_cases hv : (0 : Rat) < (lookupA pws "pts_half_ppr").getD 0
      · simp [accum_week_step, hl, positive_weeks_total, weekly_points, List.filterMap_cons,
          hv, if_pos hv, add_assoc]
      · simp [accum_week_step, hl, positive_weeks_total, weekly_points, List.filterMap_cons,
          hv, if_neg hv]

theorem accumWeeks_totalFP_eq (pid : String) (sbw : StatsByWeek) :
    (accumWeeks pid sbw).totalFantasyPoints = positive_weeks_total pid sbw := by
  rw [accumWeeks, accum_foldl_totalFP]
  simp

theorem mem_unrostered_step (rostered : Finset String) (sbw : StatsByWeek)
    (out : List (String × SeasonEntry)) (pp : String × PlayerInfo) (pe : String × SeasonEntry) :
    pe ∈ unrostered_step rostered sbw out pp ↔
      pe ∈ out ∨
        (pe.1 = pp.1 ∧ pp.1 ∉ rostered ∧ pp.2.active.getD false = true ∧
          0 < (accumWeeks pp.1 sbw).totalFantasyPoints ∧
          pe.2 = mkSeasonEntry pp.2 (accumWeeks pp.1 sbw)) := by
  unfold unrostered_step
  by_cases h1 : pp.1 ∈ rostered
  · simp [h1]
  · by_cases h2 : pp.2.active.getD false = false
    · simp [h1, h2]
    · have h2' : pp.2.active.getD false = true := by
        cases hh : pp.2.active.getD false
        · exact absurd hh h2
        · rfl
      by_cases h3 : (accumWeeks pp.1 sbw).totalFantasyPoints > 0
      · simp only [if_neg h1, if_neg h2, if_pos h3, List.mem_append,
          List.mem_singleton, Prod.ext_iff]
        constructor
        · rintro (hout | ⟨hp, he⟩)
          · exact Or.inl hout
          · exact Or.inr ⟨hp, h1, h2', h3, he⟩
        · rintro (hout | ⟨hp, _, _, _, he⟩)
          · exact Or.inl hout
          · exact Or.inr ⟨hp, he⟩
      · simp [h1, h2', h3]

theorem mem_unrostered_foldl (rostered : Finset String) (sbw : StatsByWeek) :
    ∀ (playersData : List (String × PlayerInfo)) (out : List (String × SeasonEntry))
      (p : String) (e : SeasonEntry),
      (p, e) ∈ playersData.foldl (unrostered_step rostered sbw) out ↔
        (p, e) ∈ out ∨
          ∃ pi, (p, pi) ∈ playersData ∧ p ∉ rostered ∧ pi.active.getD false = true ∧
            0 < (accumWeeks p sbw).totalFantasyPoints ∧
            e = mkSeasonEntry pi (accumWeeks p sbw) := by
  intro playersData
  induction playersData with
  | nil => intro out p e; simp
  | cons pp rest ih =>
    obtain ⟨q, pi0⟩ := pp
    intro out p e
    rw [List.foldl_cons, ih, mem_unrostered_step]
    constructor
    · rintro ((hout | ⟨h1, hr, hact, hpos, he⟩) | ⟨pi, hmem, hr, hact, hpos, he⟩)
      · exact Or.inl hout
      · subst h1
        exact Or.inr ⟨pi0, List.mem_cons_self _ _, hr, hact, hpos, he⟩
      · exact Or.inr ⟨pi, List.mem_cons_of_mem _ hmem, hr, hact, hpos, he⟩
    · rintro (hout | ⟨pi, hmem, hr, hact, hpos, he⟩)
      · exact Or.inl (Or.inl hout)
      · rcases List.mem_cons.mp hmem with hhead | htail
        · injection hhead with hp hpi
          subst hp
          subst hpi
          exact Or.inl (Or.inr ⟨rfl, hr, hact, hpos, he⟩)
        · exact Or.inr ⟨pi, htail, hr, hact, hpos, he⟩

/-- C1 (amended): a player identifier appears in the season aggregate iff
the directory holds a record for it that is not rostered, is active, and
whose half-point-PPR points summed over the fetched weeks IN WHICH THAT
VALUE IS STRICTLY POSITIVE exceed 0 (weeks with zero or negative points are
left out of the accumulated total). -/
theorem c1_unrostered_membership :
    ∀ (playersData : List (String × PlayerInfo)) (rostered : Finset String)
      (sbw : StatsByWeek) (pid : String),
      pid ∈ keysOf (get_unrostered_players_with_season_stats playersData rostered sbw) ↔
        ∃ pi, (pid, pi) ∈ playersData ∧ pid ∉ rostered ∧ pi.active.getD false = true ∧
          0 < positive_weeks_total pid sbw := by
  intro playersData rostered sbw pid
  constructor
  · intro h
    rw [keysOf, List.mem_map] at h
    obtain ⟨pe, hpe, hfst⟩ := h
    obtain ⟨p, e⟩ := pe
    rw [get_unrostered_players_with_season_stats, mem_unrostered_foldl] at hpe
    rcases hpe with h0 | ⟨pi, hmem, hr, hact, hpos, _⟩
    · simp at h0
    · rw [accumWeeks_totalFP_eq] at hpos
      cases hfst
      exact ⟨pi, hmem, hr, hact, hpos⟩
  · rintro ⟨pi, hmem, hr, hact, hpos⟩
    rw [keysOf, List.mem_map]
    refine ⟨(pid, mkSeasonEntry pi (accumWeeks pid sbw)), ?_, rfl⟩
    rw [get_unrostered_players_with_season_stats, mem_unrostered_foldl]
    refine Or.inr ⟨pi, hmem, hr, hact, ?_, rfl⟩
    rw [accumWeeks_totalFP_eq]
    exact hpos

/-- Concrete directory for the C1 counterexample: one active, unrostered
player. -/
def pdC1 : List (String × PlayerInfo) :=
  [("p1", { active := some true })]

/-- Concrete stats for the C1 counterexample: +5 points in week 1, -10
points in week 2, so the whole-season half-point-PPR sum is -5. -/
def sbwC1 : StatsByWeek :=
  [(1, [("p1", [("pts_half_ppr", 5)])]),
   (2, [("p1", [("pts_half_ppr", (-10 : Rat))])])]

/-- C1 counterexample: the player is emitted by the aggregator although its
half-point-PPR field summed over all fetched weeks is -5, not strictly
positive — so membership is not equivalent to "summed fantasy points over
the fetched weeks > 0" as the claim states (the player is unrostered and
active here, so the claim's other two conditions hold). -/
theorem c1_counterexample :
    keysOf (get_unrostered_players_with_season_stats pdC1 ∅ sbwC1) = ["p1"] ∧
      (weekly_points "p1" sbwC1).sum = -5 := by
  constructor
  · with_unfolding_all rfl
  · with_unfolding_all rfl

/-- C6: every entry emitted by the season aggregator carries an
average-points-per-week field equal to total points divided by weeks played
when weeks played is positive, and exactly 0 otherwise; the division is
taken only under the positive guard. -/
theorem c6_avg_points_guarded :
    ∀ (playersData : List (String × PlayerInfo)) (rostered : Finset String) (sbw : StatsByWeek),
      List.Forall
        (fun pe : String × SeasonEntry =>
          pe.2.avgPointsPerWeek =
            if pe.2.weeksPlayed > 0 then
              pe.2.totalFantasyPoints / (pe.2.weeksPlayed : Rat)
            else 0)
        (get_unrostered_players_with_season_stats playersData rostered sbw) := by
  intro playersData rostered sbw
  rw [List.forall_iff_forall_mem]
  rintro ⟨p, e⟩ hpe
  rw [get_unrostered_players_with_season_stats, mem_unrostered_foldl] at hpe
  rcases hpe with h0 | ⟨pi, _, _, _, _, he⟩
  · simp at h0
  · subst he
    rfl

/-! ## `save_unrostered_players_season_stats` (source lines 175-204) -/

/-- One element of the `sorted_players` list built by the save step
(source lines 179-186): the player id and total fantasy points lifted next
to the full season record. -/
structure SavedPlayer where
  playerId : String
  totalFantasyPoints : Rat
  data : SeasonEntry

def mkSavedPlayer (pe : String × SeasonEntry) : SavedPlayer :=
  { playerId := pe.1
    totalFantasyPoints := pe.2.totalFantasyPoints
    data := pe.2 }

/-- The ordering used by `sorted_players.sort(key=..., reverse=True)`:
descending by total fantasy points. -/
def savedDescOrder (a b : SavedPlayer) : Prop :=
  b.totalFantasyPoints ≤ a.totalFantasyPoints

instance : DecidableRel savedDescOrder :=
  fun a b => inferInstanceAs (Decidable (b.totalFantasyPoints ≤ a.totalFantasyPoints))

instance : IsTotal SavedPlayer savedDescOrder :=
  ⟨fun a b => le_total b.totalFantasyPoints a.totalFantasyPoints⟩

instance : IsTrans SavedPlayer savedDescOrder :=
  ⟨fun _ _ _ hab hbc => le_trans hbc hab⟩

/-- `save_unrostered_players_season_stats`, restricted to the `players`
list it writes: build one `SavedPlayer` per aggregator entry (dict order)
and sort descending by total fantasy points.  Python's `list.sort` with
`reverse=True` is a stable sort; a stable insertion sort on the reflexive
descending order produces the same list. -/
def save_unrostered_players_season_stats (unrosteredStats : List (String × SeasonEntry)) :
    List SavedPlayer :=
  List.insertionSort savedDescOrder (unrosteredStats.map mkSavedPlayer)

/-- Strict descent by total fantasy points between each consecutive pair. -/
def strictlyDescByPoints : List SavedPlayer → Bool
  | [] => true
  | [_] => true
  | a :: b :: rest =>
    decide (b.totalFantasyPoints < a.totalFantasyPoints) && strictlyDescByPoints (b :: rest)

/-- C7 (amended): the player list written by the save step is sorted in
non-increasing (descending, ties allowed) order of total fantasy points,
and is a permutation of the records built from the aggregator output. -/
theorem c7_save_sorted_descending :
    ∀ unrosteredStats : List (String × SeasonEntry),
      List.Sorted savedDescOrder (save_unrostered_players_season_stats unrosteredStats) ∧
        List.Perm (save_unrostered_players_season_stats unrosteredStats)
          (unrosteredStats.map mkSavedPlayer) :=
  fun unrosteredStats =>
    ⟨List.sorted_insertionSort savedDescOrder (unrosteredStats.map mkSavedPlayer),
     List.perm_insertionSort savedDescOrder (unrosteredStats.map mkSavedPlayer)⟩

/-- Player record shared by both C7 counterexample players. -/
def piC7 : PlayerInfo := { active := some true }

/-- Two active unrostered players for the C7 counterexample. -/
def pdC7 : List (String × PlayerInfo) := [("p1", piC7), ("p2", piC7)]

/-- Week-1 stats giving both players exactly 5 fantasy points. -/
def sbwC7 : StatsByWeek :=
  [(1, [("p1", [("pts_half_ppr", 5)]), ("p2", [("pts_half_ppr", 5)])])]

/-- C7 counterexample: an actual aggregator output containing two players
tied at 5.0 total fantasy points; the saved list is [5, 5], which is not
strictly descending (5 < 5 fails), refuting "sorted strictly descending". -/
theorem c7_counterexample :
    (save_unrostered_players_season_stats
          (get_unrostered_players_with_season_stats pdC7 ∅ sbwC7)).map
        SavedPlayer.totalFantasyPoints = [5, 5] ∧
      strictlyDescByPoints
          (save_unrostered_players_season_stats
            (get_unrostered_players_with_season_stats pdC7 ∅ sbwC7)) = false := by
  constructor
  · with_unfolding_all rfl
  · with_unfolding_all rfl

/-! ## `save_formatted_data_for_web` (source lines 207-282) -/

/-- The value stored in the roster-to-user mapping (source lines 215-218). -/
structure TeamInfo where
  displayName : String
  teamName : String
deriving DecidableEq

/-- The team info recorded for one user: display name falls back to
"Unknown", team name comes from the `team_name` metadata key and falls back
to the display name (source lines 216-217). -/
def teamInfoOfUser (u : User) : TeamInfo :=
  { displayName := u.displayName.getD "Unknown"
    teamName := (lookupA (u.metadata.getD []) "team_name").getD (u.displayName.getD "Unknown") }

/-- Source lines 211-218: for each user, join against the first roster
whose `owner_id` equals the user's `user_id`; users without a roster
contribute nothing. -/
def roster_to_user (usersData : List User) (rostersData : List Roster) :
    List (Nat × TeamInfo) :=
  usersData.foldl
    (fun acc u =>
      match rostersData.find? (fun r => decide (r.ownerId = u.userId)) with
      | some r => updateAssoc acc r.rosterId (teamInfoOfUser u)
      | none => acc)
    []

/-- `roster_to_user.get(roster_id, {'display_name': 'Unknown',
'team_name': 'Unknown'})` (source line 238). -/
def lookupTeam (rosterToUser : List (Nat × TeamInfo)) (rosterId : Option Nat) : TeamInfo :=
  (rosterId.bind (fun rid => lookupA rosterToUser rid)).getD ⟨"Unknown", "Unknown"⟩

/-- The per-matchup record emitted for the web interface
(source lines 244-253). -/
structure MatchupData where
  rosterId : Option Nat
  teamName : String
  displayName : String
  totalPoints : Rat
  starters : List String
  startersPoints : List Rat
  playersPoints : List (String × Rat)
  matchupId : Option Nat

/-- Source lines 236-253: resolve team info, total the starters' points
(`sum(starters_points) if starters_points else 0`), and carry the raw
matchup fields through. -/
def format_matchup (rosterToUser : List (Nat × TeamInfo)) (m : Matchup) : MatchupData :=
  { rosterId := m.rosterId
    teamName := (lookupTeam rosterToUser m.rosterId).teamName
    displayName := (lookupTeam rosterToUser m.rosterId).displayName
    totalPoints :=
      if (m.startersPoints.getD []) ≠ [] then (m.startersPoints.getD []).sum else 0
    starters := m.starters.getD []
    startersPoints := m.startersPoints.getD []
    playersPoints := m.playersPoints.getD []
    matchupId := m.matchupId }

/-- An entry of the flat player directory (source lines 259-263). -/
structure WebPlayer where
  name : String
  position : String
  team : String

def mkWebPlayer (pi : PlayerInfo) : WebPlayer :=
  { name := ((pi.firstName.getD "") ++ " " ++ (pi.lastName.getD "")).trim
    position := pi.position.getD "N/A"
    team := pi.team.getD "N/A" }

/-- Source lines 256-263 for one matchup's per-player point map: add each
player id that is not yet in the directory and has a record in the global
player directory; ids missing from the global directory are skipped. -/
def add_players_points (playersData : List (String × PlayerInfo))
    (acc : List (String × WebPlayer)) (pps : List (String × Rat)) :
    List (String × WebPlayer) :=
  pps.foldl
    (fun acc pp =>
      if (lookupA acc pp.1).isNone then
        match lookupA playersData pp.1 with
        | some pi => acc ++ [(pp.1, mkWebPlayer pi)]
        | none => acc
      else acc)
    acc

def add_matchup_players (playersData : List (String × PlayerInfo))
    (acc : List (String × WebPlayer)) (m : Matchup) : List (String × WebPlayer) :=
  add_players_points playersData acc (m.playersPoints.getD [])

def add_week_players (playersData : List (String × PlayerInfo))
    (acc : List (String × WebPlayer)) (ms : List Matchup) : List (String × WebPlayer) :=
  ms.foldl (add_matchup_players playersData) acc

/-- The flat player directory accumulated over every processed week
(weeks whose matchup fetch is absent or empty are skipped, source
lines 227-229). -/
def web_players (matchupsByWeek : List (Nat × Option (List Matchup)))
    (playersData : List (String × PlayerInfo)) : List (String × WebPlayer) :=
  matchupsByWeek.foldl
    (fun acc wk =>
      match wk.2 with
      | some ms => if ms ≠ [] then add_week_players playersData acc ms else acc
      | none => acc)
    []

/-- League document fields the script reads. -/
structure LeagueInfo where
  name : Option String := none
  season : Option Nat := none
  draftId : Option String := none
  totalRosters : Option Nat := none
deriving DecidableEq

structure FormattedLeagueInfo where
  name : String
  leagueId : String
  season : Option Nat
  currentWeek : Nat
  totalRosters : Option Nat

structure WeekData where
  week : Nat
  matchups : List MatchupData

/-- The complete document written to `web_interface_data.json`. -/
structure FormattedData where
  weeks : List WeekData
  teams : List (Nat × TeamInfo)
  players : List (String × WebPlayer)
  leagueInfo : FormattedLeagueInfo

/-- `save_formatted_data_for_web`, restricted to the document it writes. -/
def save_formatted_data_for_web (matchupsByWeek : List (Nat × Option (List Matchup)))
    (playersData : List (String × PlayerInfo)) (usersData : List User)
    (rostersData : List Roster) (leagueInfo : LeagueInfo) (currentWeek : Nat)
    (leagueId : String) : FormattedData :=
  { weeks :=
      matchupsByWeek.filterMap
        (fun wk =>
          match wk.2 with
          | some ms =>
            if ms ≠ [] then
              some { week := wk.1,
                     matchups := ms.map (format_matchup (roster_to_user usersData rostersData)) }
            else none
          | none => none)
    teams := roster_to_user usersData rostersData
    players := web_players matchupsByWeek playersData
    leagueInfo :=
      { name := leagueInfo.name.getD "Unknown League"
        leagueId := leagueId
        season := leagueInfo.season
        currentWeek := currentWeek
        totalRosters := leagueInfo.totalRosters } }

/-- C8: the emitted `total_points` of every formatted matchup equals the
sum of the matchup's starters'-points list, and in particular is 0 when
that list is absent or empty. -/
theorem c8_total_points_sum :
    (∀ (rosterToUser : List (Nat × TeamInfo)) (m : Matchup),
        (format_matchup rosterToUser m).totalPoints = (m.startersPoints.getD []).sum) ∧
      ∀ (rosterToUser : List (Nat × TeamInfo)) (rid mid : Option Nat)
        (st : Option (List String)) (pp : Option (List (String × Rat))),
        (format_matchup rosterToUser
            { rosterId := rid, matchupId := mid, starters := st,
              startersPoints := none, playersPoints := pp }).totalPoints = 0 ∧
          (format_matchup rosterToUser
              { rosterId := rid, matchupId := mid, starters := st,
                startersPoints := some [], playersPoints := pp }).totalPoints = 0 := by
  constructor
  · intro rosterToUser m
    by_cases h : (m.startersPoints.getD []) = []
    · simp [format_matchup, h]
    · simp [format_matchup, h]
  · intro rosterToUser rid mid st pp
    constructor
    · simp [format_matchup]
    · simp [format_matchup]

/-- C9: the team name recorded for a user joined to a roster falls back to
the user's display name when the `team_name` metadata key is absent, and a
matchup whose roster id has no entry in the roster-to-user mapping is
formatted with team name and display name both "Unknown". -/
theorem c9_team_name_fallbacks :
    (∀ (u : User) (d : String),
        u.displayName = some d →
        lookupA (u.metadata.getD []) "team_name" = none →
        (teamInfoOfUser u).teamName = d ∧ (teamInfoOfUser u).displayName = d) ∧
      ∀ (rosterToUser : List (Nat × TeamInfo)) (m : Matchup),
        m.rosterId.bind (fun rid => lookupA rosterToUser rid) = none →
        (format_matchup rosterToUser m).teamName = "Unknown" ∧
          (format_matchup rosterToUser m).displayName = "Unknown" := by
  constructor
  · intro u d h1 h2
    constructor
    · simp [teamInfoOfUser, h1, h2]
    · simp [teamInfoOfUser, h1]
  · intro rosterToUser m h
    constructor
    · simp [format_matchup, lookupTeam, h]
    · simp [format_matchup, lookupTeam, h]

/-- Concrete user for the C9 witness: display name present, no metadata. -/
def uC9 : User := { userId := none, displayName := some "Alice", metadata := none }

/-- Concrete matchup for the C9 witness: roster id 3, empty lookup table. -/
def mC9 : Matchup := { rosterId := some 3 }

theorem c9_witness :
    ((teamInfoOfUser uC9).teamName = "Alice" ∧ (teamInfoOfUser uC9).displayName = "Alice") ∧
      ((format_matchup [] mC9).teamName = "Unknown" ∧
        (format_matchup [] mC9).displayName = "Unknown") :=
  ⟨c9_team_name_fallbacks.1 uC9 "Alice" rfl rfl,
   c9_team_name_fallbacks.2 [] mC9 rfl⟩

theorem mem_keys_add_players_points (playersData : List (String × PlayerInfo)) :
    ∀ (pps : List (String × Rat)) (acc : List (String × WebPlayer)) (pid : String),
      pid ∈ keysOf (add_players_points playersData acc pps) ↔
        pid ∈ keysOf acc ∨ (pid ∈ keysOf pps ∧ pid ∈ keysOf playersData) := by
  intro pps
  induction pps with
  | nil =>
    intro acc pid
    simp [add_players_points, keysOf]
  | cons pp rest ih =>
    intro acc pid
    have hstep :
        ∀ acc' : List (String × WebPlayer),
          pid ∈ keysOf
              (if (lookupA acc' pp.1).isNone then
                match lookupA playersData pp.1 with
                | some pi => acc' ++ [(pp.1, mkWebPlayer pi)]
                | none => acc'
              else acc') ↔
            pid ∈ keysOf acc' ∨ (pid = pp.1 ∧ pid ∈ keysOf playersData) := by
      intro acc'
      by_cases hA : (lookupA acc' pp.1).isNone
      · cases hpd : lookupA playersData pp.1 with
        | none =>
          have hnot : pp.1 ∉ keysOf playersData := (lookupA_eq_none_iff _ _).mp hpd
          simp only [if_pos hA, hpd]
          constructor
          · exact Or.inl
          · rintro (h | ⟨rfl, hmem⟩)
            · exact h
            · exact absurd hmem hnot
        | some pi =>
          have hmem : pp.1 ∈ keysOf playersData := by
            rw [← lookupA_isSome_iff, hpd]
            rfl
          simp only [if_pos hA, hpd, keysOf, List.map_append, List.mem_append,
            List.map_cons, List.map_nil, List.mem_singleton]
          constructor
          · rintro (h | h)
            · exact Or.inl h
            · refine Or.inr ⟨h, ?_⟩
              rw [h]
              exact hmem
          · rintro (h | ⟨rfl, _⟩)
            · exact Or.inl h
            · exact Or.inr rfl
      · have hSome : (lookupA acc' pp.1).isSome = true := by
          cases hx : lookupA acc' pp.1 with
          | none => rw [hx] at hA; exact absurd rfl hA
          | some v => rfl
        have hmemacc : pp.1 ∈ keysOf acc' := (lookupA_isSome_iff _ _).mp hSome
        simp only [if_neg hA]
        constructor
        · exact Or.inl
        · rintro (h | ⟨rfl, _⟩)
          · exact h
          · exact hmemacc
    rw [add_players_points, List.foldl_cons]
    have hrest := ih (if (lookupA acc pp.1).isNone then
        match lookupA playersData pp.1 with
        | some pi => acc ++ [(pp.1, mkWebPlayer pi)]
        | none => acc
      else acc) pid
    rw [add_players_points] at hrest
    rw [hrest, hstep acc]
    simp only [keysOf, List.map_cons, List.mem_cons]
    tauto

theorem mem_keys_add_week_players (playersData : List (String × PlayerInfo)) :
    ∀ (ms : List Matchup) (acc : List (String × WebPlayer)) (pid : String),
      pid ∈ keysOf (add_week_players playersData acc ms) ↔
        pid ∈ keysOf acc ∨
          ((∃ m ∈ ms, pid ∈ keysOf (m.playersPoints.getD [])) ∧ pid ∈ keysOf playersData) := by
  intro ms
  induction ms with
  | nil =>
    intro acc pid
    simp [add_week_players]
  | cons m rest ih =>
    intro acc pid
    rw [add_week_players, List.foldl_cons]
    have hrest := ih (add_matchup_players playersData acc m) pid
    rw [add_week_players] at hrest
    rw [hrest, add_matchup_players, mem_keys_add_players_points]
    simp only [List.mem_cons]
    constructor
    · rintro ((h | ⟨hm, hpd⟩) | ⟨⟨m', hm', hpp⟩, hpd⟩)
      · exact Or.inl h
      · exact Or.inr ⟨⟨m, Or.inl rfl, hm⟩, hpd⟩
      · exact Or.inr ⟨⟨m', Or.inr hm', hpp⟩, hpd⟩
    · rintro (h | ⟨⟨m', hm' | hm', hpp⟩, hpd⟩)
      · exact Or.inl (Or.inl h)
      · subst hm'
        exact Or.inl (Or.inr ⟨hpp, hpd⟩)
      · exact Or.inr ⟨⟨m', hm', hpp⟩, hpd⟩

theorem mem_keys_web_players_foldl (playersData : List (String × PlayerInfo)) :
    ∀ (matchupsByWeek : List (Nat × Option (List Matchup)))
      (acc : List (String × WebPlayer)) (pid : String),
      pid ∈ keysOf (matchupsByWeek.foldl
          (fun acc wk =>
            match wk.2 with
            | some ms => if ms ≠ [] then add_week_players playersData acc ms else acc
            | none => acc)
          acc) ↔
        pid ∈ keysOf acc ∨
          ((∃ wk ∈ matchupsByWeek, ∃ ms, wk.2 = some ms ∧
              ∃ m ∈ ms, pid ∈ keysOf (m.playersPoints.getD [])) ∧
            pid ∈ keysOf playersData) := by
  intro matchupsByWeek
  induction matchupsByWeek with
  | nil =>
    intro acc pid
    simp
  | cons wk rest ih =>
    intro acc pid
    rw [List.foldl_cons, ih]
    cases hw : wk.2 with
    | none =>
      simp only [List.mem_cons]
      constructor
      · rintro (h | ⟨⟨wk', hwk', ms, hms, hmm⟩, hpd⟩)
        · exact Or.inl h
        · exact Or.inr ⟨⟨wk', Or.inr hwk', ms, hms, hmm⟩, hpd⟩
      · rintro (h | ⟨⟨wk', hwk' | hwk', ms, hms, hmm⟩, hpd⟩)
        · exact Or.inl h
        · subst hwk'
          rw [hw] at hms
          exact absurd hms (by simp)
        · exact Or.inr ⟨⟨wk', hwk', ms, hms, hmm⟩, hpd⟩
    | some ms =>
      by_cases hms0 : ms = []
      · subst hms0
        have hcond : ¬ (([] : List Matchup) ≠ []) := fun h => h rfl
        simp only [if_neg hcond, List.mem_cons]
        constructor
        · rintro (h | ⟨⟨wk', hwk', ms', hms', hmm⟩, hpd⟩)
          · exact Or.inl h
          · exact Or.inr ⟨⟨wk', Or.inr hwk', ms', hms', hmm⟩, hpd⟩
        · rintro (h | ⟨⟨wk', hwk' | hwk', ms', hms', hmm⟩, hpd⟩)
          · exact Or.inl h
          · subst hwk'
            rw [hw] at hms'
            cases hms'
            obtain ⟨m, hm, _⟩ := hmm
            simp at hm
          · exact Or.inr ⟨⟨wk', hwk', ms', hms', hmm⟩, hpd⟩
      · simp only [if_pos hms0, mem_keys_add_week_players, List.mem_cons]
        constructor
        · rintro ((h | ⟨hmm, hpd⟩) | ⟨⟨wk', hwk', ms', hms', hmm⟩, hpd⟩)
          · exact Or.inl h
          · exact Or.inr ⟨⟨wk, Or.inl rfl, ms, hw, hmm⟩, hpd⟩
          · exact Or.inr ⟨⟨wk', Or.inr hwk', ms', hms', hmm⟩, hpd⟩
        · rintro (h | ⟨⟨wk', hwk' | hwk', ms', hms', hmm⟩, hpd⟩)
          · exact Or.inl (Or.inl h)
          · subst hwk'
            rw [hw] at hms'
            cases hms'
            exact Or.inl (Or.inr ⟨hmm, hpd⟩)
          · exact Or.inr ⟨⟨wk', hwk', ms', hms', hmm⟩, hpd⟩

/-- C10: the flat player directory of the formatted document contains
exactly the player identifiers that appear in some processed matchup's
per-player point map and are also keys of the global player directory;
identifiers missing from the global directory are silently omitted. -/
theorem c10_flat_player_directory :
    ∀ (matchupsByWeek : List (Nat × Option (List Matchup)))
      (playersData : List (String × PlayerInfo)) (usersData : List User)
      (rostersData : List Roster) (leagueInfo : LeagueInfo) (currentWeek : Nat)
      (leagueId : String) (pid : String),
      pid ∈ keysOf (save_formatted_data_for_web matchupsByWeek playersData usersData
          rostersData leagueInfo currentWeek leagueId).players ↔
        (∃ wk ∈ matchupsByWeek, ∃ ms, wk.2 = some ms ∧
            ∃ m ∈ ms, pid ∈ keysOf (m.playersPoints.getD [])) ∧
          pid ∈ keysOf playersData := by
  intro matchupsByWeek playersData usersData rostersData leagueInfo currentWeek leagueId pid
  show pid ∈ keysOf (web_players matchupsByWeek playersData) ↔ _
  rw [web_players, mem_keys_web_players_foldl]
  simp [keysOf]

/-! ## `SleeperAPI._make_request` (source lines 37-51) -/

/-- Observable side effects of one `_make_request` call. -/
inductive ApiEvent where
  | httpGet
  | slept
  | errorLogged
deriving DecidableEq

/-- `_make_request`, modelled on its observable effects.  The argument is
the outcome of `session.get` plus `raise_for_status` (`some body` on
success, `none` when a `RequestException` was raised); the result pairs the
returned value with the ordered effect trace.  In the source,
`time.sleep(0.1)` stands after `raise_for_status` inside the `try` block,
so the `except` path returns `None` without sleeping. -/
def make_request {α : Type} (outcome : Option α) : Option α × List ApiEvent :=
  match outcome with
  | some body => (some body, [ApiEvent.httpGet, ApiEvent.slept])
  | none => (none, [ApiEvent.httpGet, ApiEvent.errorLogged])

/-- C3 counterexample: on a failed request `_make_request` returns an
absent result without the inter-request delay ever running, refuting "the
delay is applied regardless of whether the request succeeds or fails". -/
theorem c3_counterexample :
    (make_request (none : Option Unit)).1 = none ∧
      ApiEvent.slept ∉ (make_request (none : Option Unit)).2 := by
  constructor
  · rfl
  · decide

/-- C3 (amended): the fixed inter-request delay runs before
`_make_request` returns iff the request succeeds; on a transport/status
failure the call returns an absent result with no delay applied. -/
theorem c3_delay_iff_success :
    ∀ {α : Type} (outcome : Option α),
      ApiEvent.slept ∈ (make_request outcome).2 ↔ outcome.isSome = true := by
  intro α outcome
  cases outcome with
  | none => simp [make_request]
  | some body => simp [make_request]

/-! ## `.env` loading and league-id resolution (source lines 329-365) -/

/-- One line of `load_env_file`'s loop (source lines 334-338): strip the
line, skip blanks, comments and lines without `=`, then split on the first
`=` and assign the stripped key/value into the environment (overwriting any
existing variable). -/
def load_env_line (environ : List (String × String)) (rawLine : String) :
    List (String × String) :=
  let line := rawLine.trim
  if line ≠ "" ∧ line.startsWith "#" = false ∧ 2 ≤ (line.splitOn "=").length then
    updateAssoc environ (((line.splitOn "=").headD "").trim)
      ((String.intercalate "=" (line.splitOn "=").tail).trim)
  else environ

/-- `load_env_file` (source lines 329-338): an absent `.env` file changes
nothing; otherwise every line is folded into the environment. -/
def load_env_file (envFile : Option (List String)) (environ : List (String × String)) :
    List (String × String) :=
  match envFile with
  | none => environ
  | some lines => lines.foldl load_env_line environ

/-- `get_league_id` (source lines 341-365), minus the printing: `some id`
on success, `none` when the usage text is printed and the process exits
with status 1.  An empty-string environment value is falsy under
`if league_id:` and does not resolve. -/
def get_league_id (argv : List String) (environ : List (String × String)) : Option String :=
  if 2 ≤ argv.length then some (argv.getD 1 "")
  else
    match lookupA environ "SLEEPER_LEAGUE_ID" with
    | some v => if v = "" then none else some v
    | none => none

/-- The composition `main` actually runs (source lines 370-376):
`load_env_file()` rewrites the process environment first, then
`get_league_id()` reads the result. -/
def resolve_league_id (argv : List String) (envFile : Option (List String))
    (environ : List (String × String)) : Option String :=
  get_league_id argv (load_env_file envFile environ)

/-- Modelled from the claim's wording, for comparison only: command-line
argument first, then the PRE-EXISTING environment variable, then the
settings file. -/
def spec_resolve_league_id (argv : List String) (envFile : Option (List String))
    (environ : List (String × String)) : Option String :=
  if 2 ≤ argv.length then some (argv.getD 1 "")
  else
    match lookupA environ "SLEEPER_LEAGUE_ID" with
    | some v => if v = "" then none else some v
    | none =>
      match lookupA (load_env_file envFile []) "SLEEPER_LEAGUE_ID" with
      | some v => if v = "" then none else some v
      | none => none

/-- C2 counterexample: with no command-line argument, the environment
variable set to "A" and the settings file assigning "B", the program
resolves "B" (the `.env` file overwrites the environment variable before it
is read), while the claimed priority order resolves "A". -/
theorem c2_counterexample :
    resolve_league_id ["prog"] (some ["SLEEPER_LEAGUE_ID=B"]) [("SLEEPER_LEAGUE_ID", "A")] =
        some "B" ∧
      spec_resolve_league_id ["prog"] (some ["SLEEPER_LEAGUE_ID=B"])
          [("SLEEPER_LEAGUE_ID", "A")] = some "A" ∧
      ("B" : String) ≠ "A" := by
  refine ⟨?_, ?_, ?_⟩
  · with_unfolding_all rfl
  · with_unfolding_all rfl
  · decide

/-! ## `main` (source lines 370-556), file outputs and exit behaviour -/

/-- The `state/nfl` document; the script only reads its `week` field. -/
structure NflState where
  week : Option Nat := none
deriving DecidableEq

/-- The fetch results `main` can observe, one per endpoint.  The draft
document is reduced to presence (a fetched draft dict is assumed nonempty,
so `if draft_info:` is its `isSome`); draft picks keep list truthiness. -/
structure ApiOracle where
  nflState : Option NflState
  playersData : Option (List (String × PlayerInfo))
  leagueInfo : Option LeagueInfo
  rosters : Option (List Roster)
  users : Option (List User)
  matchups : Nat → Option (List Matchup)
  draftInfo : Option Unit
  draftPicks : Option (List Unit)
  weeklyStats : Nat → Option WeekStats

/-- `current_week = nfl_state.get('week', 1) if nfl_state else 1`
(source line 386). -/
def main_current_week (api : ApiOracle) : Nat :=
  match api.nflState with
  | some s => s.week.getD 1
  | none => 1

/-- `weeks_to_fetch = list(range(1, current_week + 1))` (source line 408). -/
def main_weeks (api : ApiOracle) : List Nat :=
  List.range' 1 (main_current_week api)

/-- `get_multiple_weeks_matchups` (source lines 97-103): a sequential loop
yielding week-to-result pairs in order. -/
def main_matchups_by_week (api : ApiOracle) : List (Nat × Option (List Matchup)) :=
  (main_weeks api).map (fun w => (w, api.matchups w))

/-- `matchups = matchups_by_week.get(current_week)` (source line 413). -/
def main_matchups (api : ApiOracle) : Option (List Matchup) :=
  (lookupA (main_matchups_by_week api) (main_current_week api)).getD none

/-- Draft info is fetched only when `league_info.get('draft_id')` is truthy
(source lines 416-421). -/
def main_draft_info (li : LeagueInfo) (api : ApiOracle) : Option Unit :=
  match li.draftId with
  | some s => if s ≠ "" then api.draftInfo else none
  | none => none

def main_draft_picks (li : LeagueInfo) (api : ApiOracle) : Option (List Unit) :=
  match li.draftId with
  | some s => if s ≠ "" then api.draftPicks else none
  | none => none

/-- `get_multiple_weeks_stats` (source lines 89-95). -/
def main_stats_by_week (api : ApiOracle) : List (Nat × Option WeekStats) :=
  (main_weeks api).map (fun w => (w, api.weeklyStats w))

/-- `valid_stats = {week: stats for ... if stats is not None}`
(source line 521). -/
def main_valid_stats (api : ApiOracle) : StatsByWeek :=
  (main_stats_by_week api).filterMap (fun ws => ws.2.map (fun s => (ws.1, s)))

/-- The aggregator run of source lines 526-530. -/
def main_unrostered (api : ApiOracle) : List (String × SeasonEntry) :=
  get_unrostered_players_with_season_stats (api.playersData.getD [])
    (get_rostered_players (api.rosters.getD [])) (main_valid_stats api)

/-- The JSON files `main` can write, tagged by resource. -/
inductive OutputFile where
  | leagueInfoFile
  | rostersFile
  | usersFile
  | matchupsWeekFile (week : Nat)
  | draftInfoFile
  | draftPicksFile
  | nflStateFile
  | nflPlayersFile
  | webInterfaceFile
  | unrosteredStatsFile
deriving DecidableEq

/-- The deterministic on-disk name of each output file
(source lines 434-481, 279, 200). -/
def output_filename (leagueId : String) : OutputFile → String
  | .leagueInfoFile => "league_" ++ leagueId ++ "_info.json"
  | .rostersFile => "league_" ++ leagueId ++ "_rosters.json"
  | .usersFile => "league_" ++ leagueId ++ "_users.json"
  | .matchupsWeekFile w => "league_" ++ leagueId ++ "_matchups_week_" ++ toString w ++ ".json"
  | .draftInfoFile => "league_" ++ leagueId ++ "_draft_info.json"
  | .draftPicksFile => "league_" ++ leagueId ++ "_draft_picks.json"
  | .nflStateFile => "nfl_state.json"
  | .nflPlayersFile => "nfl_players.json"
  | .webInterfaceFile => "web_interface_data.json"
  | .unrosteredStatsFile => "league_" ++ leagueId ++ "_unrostered_season_stats.json"

/-- The files written once the league check has passed, in source order
(lines 432-481 guard each dump on the resource's truthiness; lines 493-495
guard the web export; lines 507-535 guard the unrostered-stats export). -/
def main_files (li : LeagueInfo) (api : ApiOracle) : List OutputFile :=
  [OutputFile.leagueInfoFile]
    ++ (if truthyList api.rosters then [OutputFile.rostersFile] else [])
    ++ (if truthyList api.users then [OutputFile.usersFile] else [])
    ++ (if truthyList (main_matchups api) then
          [OutputFile.matchupsWeekFile (main_current_week api)]
        else [])
    ++ (if (main_draft_info li api).isSome then [OutputFile.draftInfoFile] else [])
    ++ (if truthyList (main_draft_picks li api) then [OutputFile.draftPicksFile] else [])
    ++ (if api.nflState.isSome then [OutputFile.nflStateFile] else [])
    ++ (if truthyList api.playersData then [OutputFile.nflPlayersFile] else [])
    ++ (if truthyList api.playersData ∧ truthyList api.users ∧ truthyList api.rosters ∧
            main_matchups_by_week api ≠ [] then
          [OutputFile.webInterfaceFile]
        else [])
    ++ (if truthyList api.playersData ∧ truthyList api.rosters ∧
            main_valid_stats api ≠ [] ∧ main_unrostered api ≠ [] then
          [OutputFile.unrosteredStatsFile]
        else [])

/-- Observable outcome of one `main` run: whether the usage text or the
league-fetch diagnostic was printed, which files were written, and the exit
status (`none` is a normal return). -/
structure MainResult where
  usagePrinted : Bool
  leagueErrorPrinted : Bool
  files : List OutputFile
  exitCode : Option Nat
deriving DecidableEq

/-- `main` (source lines 370-556): resolve the league id (exit 1 with usage
on failure), fetch, exit 1 with a diagnostic if the league document is
absent — both exits happen before any file is opened — and otherwise write
the guarded files and return normally. -/
def run_main (argv : List String) (envFile : Option (List String))
    (environ : List (String × String)) (api : ApiOracle) : MainResult :=
  match resolve_league_id argv envFile environ with
  | none =>
    { usagePrinted := true, leagueErrorPrinted := false, files := [], exitCode := some 1 }
  | some _ =>
    match api.leagueInfo with
    | none =>
      { usagePrinted := false, leagueErrorPrinted := true, files := [], exitCode := some 1 }
    | some li =>
      { usagePrinted := false, leagueErrorPrinted := false,
        files := main_files li api, exitCode := none }

/-- C2 (amended): the league identifier is resolved by trying the
command-line argument first, then the environment variable AS IT STANDS
AFTER the settings file has been loaded into the environment (file entries
overwrite any pre-existing variable); when neither yields an identifier the
process prints the usage message and exits with status 1. -/
theorem c2_league_id_resolution :
    (∀ (argv : List String) (envFile : Option (List String))
        (environ : List (String × String)),
        2 ≤ argv.length → resolve_league_id argv envFile environ = some (argv.getD 1 "")) ∧
      (∀ (argv : List String) (envFile : Option (List String))
          (environ : List (String × String)),
          argv.length < 2 →
            resolve_league_id argv envFile environ =
              match lookupA (load_env_file envFile environ) "SLEEPER_LEAGUE_ID" with
              | some v => if v = "" then none else some v
              | none => none) ∧
      ∀ (argv : List String) (envFile : Option (List String))
        (environ : List (String × String)) (api : ApiOracle),
        resolve_league_id argv envFile environ = none →
          run_main argv envFile environ api =
            { usagePrinted := true, leagueErrorPrinted := false,
              files := [], exitCode := some 1 } := by
  refine ⟨?_, ?_, ?_⟩
  · intro argv envFile environ h
    rw [resolve_league_id, get_league_id, if_pos h]
  · intro argv envFile environ h
    rw [resolve_league_id, get_league_id, if_neg (by omega)]
  · intro argv envFile environ api h
    simp [run_main, h]

/-- Oracle with every fetch failing, for the C2 and C4 witnesses. -/
def apiAllAbsent : ApiOracle :=
  { nflState := none, playersData := none, leagueInfo := none, rosters := none,
    users := none, matchups := fun _ => none, draftInfo := none, draftPicks := none,
    weeklyStats := fun _ => none }

theorem c2_witness :
    resolve_league_id ["prog", "X"] none [] = some "X" ∧
      resolve_league_id ["prog"] (some ["SLEEPER_LEAGUE_ID=B"]) [("SLEEPER_LEAGUE_ID", "A")] =
        (match lookupA (load_env_file (some ["SLEEPER_LEAGUE_ID=B"])
            [("SLEEPER_LEAGUE_ID", "A")]) "SLEEPER_LEAGUE_ID" with
          | some v => if v = "" then none else some v
          | none => none) ∧
      run_main ["prog"] none [] apiAllAbsent =
        { usagePrinted := true, leagueErrorPrinted := false, files := [], exitCode := some 1 } :=
  ⟨c2_league_id_resolution.1 ["prog", "X"] none [] (by decide),
   c2_league_id_resolution.2.1 ["prog"] (some ["SLEEPER_LEAGUE_ID=B"])
     [("SLEEPER_LEAGUE_ID", "A")] (by decide),
   c2_league_id_resolution.2.2 ["prog"] none [] apiAllAbsent rfl⟩

theorem mem_ite_singleton {α : Type} {c : Prop} [Decidable c] (x y : α) :
    x ∈ (if c then [y] else []) ↔ x = y ∧ c := by
  by_cases h : c
  · simp [h]
  · simp [h]

theorem mem_main_files (li : LeagueInfo) (api : ApiOracle) (f : OutputFile) :
    f ∈ main_files li api ↔
      f = OutputFile.leagueInfoFile ∨
        (f = OutputFile.rostersFile ∧ truthyList api.rosters = true) ∨
        (f = OutputFile.usersFile ∧ truthyList api.users = true) ∨
        (f = OutputFile.matchupsWeekFile (main_current_week api) ∧
          truthyList (main_matchups api) = true) ∨
        (f = OutputFile.draftInfoFile ∧ (main_draft_info li api).isSome = true) ∨
        (f = OutputFile.draftPicksFile ∧ truthyList (main_draft_picks li api) = true) ∨
        (f = OutputFile.nflStateFile ∧ api.nflState.isSome = true) ∨
        (f = OutputFile.nflPlayersFile ∧ truthyList api.playersData = true) ∨
        (f = OutputFile.webInterfaceFile ∧
          (truthyList api.playersData = true ∧ truthyList api.users = true ∧
            truthyList api.rosters = true ∧ main_matchups_by_week api ≠ [])) ∨
        (f = OutputFile.unrosteredStatsFile ∧
          (truthyList api.playersData = true ∧ truthyList api.rosters = true ∧
            main_valid_stats api ≠ [] ∧ main_unrostered api ≠ [])) := by
  simp only [main_files, List.mem_append, List.mem_cons, List.not_mem_nil, or_false,
    mem_ite_singleton, or_assoc]

theorem main_draft_info_none (li : LeagueInfo) (api : ApiOracle)
    (h : api.draftInfo = none) : main_draft_info li api = none := by
  unfold main_draft_info
  cases li.draftId with
  | none => rfl
  | some s =>
    by_cases hs : s ≠ ""
    · simp [hs, h]
    · simp [hs]

theorem main_draft_picks_none (li : LeagueInfo) (api : ApiOracle)
    (h : api.draftPicks = none) : main_draft_picks li api = none := by
  unfold main_draft_picks
  cases li.draftId with
  | none => rfl
  | some s =>
    by_cases hs : s ≠ ""
    · simp [hs, h]
    · simp [hs]

theorem main_valid_stats_nil (api : ApiOracle) (h : ∀ w, api.weeklyStats w = none) :
    main_valid_stats api = [] := by
  unfold main_valid_stats main_stats_by_week
  induction main_weeks api with
  | nil => rfl
  | cons w rest ih => simp [List.filterMap_cons, h, ih]

/-- C4: once the league id resolves, an absent league-information fetch is
fatal — exit status 1, diagnostic printed, no file written — while the
absence of any other fetched resource leaves the exit status normal and
only skips the file that depends on it. -/
theorem c4_league_info_fatal :
    ∀ (argv : List String) (envFile : Option (List String))
      (environ : List (String × String)) (api : ApiOracle) (lid : String),
      resolve_league_id argv envFile environ = some lid →
      (api.leagueInfo = none →
        run_main argv envFile environ api =
          { usagePrinted := false, leagueErrorPrinted := true,
            files := [], exitCode := some 1 }) ∧
      ∀ li, api.leagueInfo = some li →
        (run_main argv envFile environ api).exitCode = none ∧
        (truthyList api.rosters = false →
          OutputFile.rostersFile ∉ (run_main argv envFile environ api).files) ∧
        (truthyList api.users = false →
          OutputFile.usersFile ∉ (run_main argv envFile environ api).files) ∧
        (truthyList (main_matchups api) = false →
          ∀ w, OutputFile.matchupsWeekFile w ∉ (run_main argv envFile environ api).files) ∧
        (api.draftInfo = none →
          OutputFile.draftInfoFile ∉ (run_main argv envFile environ api).files) ∧
        (api.draftPicks = none →
          OutputFile.draftPicksFile ∉ (run_main argv envFile environ api).files) ∧
        (api.nflState = none →
          OutputFile.nflStateFile ∉ (run_main argv envFile environ api).files) ∧
        (truthyList api.playersData = false →
          OutputFile.nflPlayersFile ∉ (run_main argv envFile environ api).files ∧
            OutputFile.webInterfaceFile ∉ (run_main argv envFile environ api).files ∧
            OutputFile.unrosteredStatsFile ∉ (run_main argv envFile environ api).files) ∧
        ((∀ w, api.weeklyStats w = none) →
          OutputFile.unrosteredStatsFile ∉ (run_main argv envFile environ api).files) := by
  intro argv envFile environ api lid hres
  constructor
  · intro h0
    simp [run_main, hres, h0]
  · intro li hli
    have hrm :
        run_main argv envFile environ api =
          { usagePrinted := false, leagueErrorPrinted := false,
            files := main_files li api, exitCode := none } := by
      simp [run_main, hres, hli]
    rw [hrm]
    refine ⟨rfl, ?_, ?_, ?_, ?_, ?_, ?_, ?_, ?_⟩
    · intro h
      simp [mem_main_files, h]
    · intro h
      simp [mem_main_files, h]
    · intro h w
      simp [mem_main_files, h]
    · intro h
      simp [mem_main_files, main_draft_info_none li api h]
    · intro h
      simp [mem_main_files, main_draft_picks_none li api h, truthyList]
    · intro h
      simp [mem_main_files, h]
    · intro h
      refine ⟨?_, ?_, ?_⟩ <;> simp [mem_main_files, h]
    · intro h
      simp [mem_main_files, main_valid_stats_nil api h]

/-- Oracle whose league fetch succeeds (default league document) while
every other fetch fails. -/
def apiLeagueOnly : ApiOracle :=
  { apiAllAbsent with leagueInfo := some {} }

theorem c4_witness :
    run_main ["prog", "L"] none [] apiAllAbsent =
        { usagePrinted := false, leagueErrorPrinted := true,
          files := [], exitCode := some 1 } ∧
      (run_main ["prog", "L"] none [] apiLeagueOnly).exitCode = none ∧
      OutputFile.rostersFile ∉ (run_main ["prog", "L"] none [] apiLeagueOnly).files ∧
      OutputFile.unrosteredStatsFile ∉ (run_main ["prog", "L"] none [] apiLeagueOnly).files :=
  ⟨(c4_league_info_fatal ["prog", "L"] none [] apiAllAbsent "L" rfl).1 rfl,
   ((c4_league_info_fatal ["prog", "L"] none [] apiLeagueOnly "L" rfl).2 {} rfl).1,
   (((c4_league_info_fatal ["prog", "L"] none [] apiLeagueOnly "L" rfl).2 {} rfl).2.1 rfl),
   (((c4_league_info_fatal ["prog", "L"] none [] apiLeagueOnly "L" rfl).2 {}
       rfl).2.2.2.2.2.2.2.2 (fun _ => rfl))⟩
